import Mathlib

/-!
# Verification of the order-composition and pricing subsystem of main2.py

This file shallowly embeds the Flask/SQLAlchemy application `src/main2.py`
(WonderBoi99/Clothing-Website) and settles the claims of the specification
against it.

Two layers are modelled, both directly from the source:

* an import-time model (`load_stmts` over `main2_stmts`): the top-level
  statements of the module in order, each recording the top-level names and
  the attributes of the SQLAlchemy object `db` that its evaluation touches.
  The source's `PlacedIn` class body calls the misspelled `db.ForiegnKey`
  (line 74) and the `Item` and `Order` class bodies reference
  `association_table` (lines 223 and 274), whose definition at lines 66-69
  is commented out; the loader model reproduces the resulting import failure.

* a request-time model: each route handler of the order subsystem is a
  function from a database state `DBState` to a new state plus an outcome
  `Except PyError HResponse`.  Python dynamic failures that the handler code
  raises are explicit `PyError` values; because the source commits to the
  database mid-handler, a handler returns the state as of the point where it
  raised, so partially committed work is kept.  The handlers model the
  mutating (POST / validated-form) path of each route; the GET paths render
  templates without touching the database.  Where the handler bodies join
  through the unbound name `association_table` (covered by the import-time
  model), the join is read over the `placed_in` table that the commented-out
  lines 66-69 define and that the `PlacedIn` model duplicates.
-/

/-- Python runtime errors raised by the handler bodies of `src/main2.py` as
written: `attributeError a` for an attribute access `x.a` on an object (or
`None`) lacking it, `typeError` for `Query.get` called with a keyword
argument (SQLAlchemy's `get` takes the identity positionally), and
`unmappedInstanceError` for `db.session.delete` applied to a plain list. -/
inductive PyError where
  | nameError : String → PyError
  | attributeError : String → PyError
  | typeError : String → PyError
  | unmappedInstanceError : PyError
  deriving Repr, DecidableEq

/-- Row of the `item` table (class `Item`, main2.py lines 200-223).  Prices
are kept as exact rationals in the state model; the source's declaration of
the `price` and `total_price` columns as `db.Float` is recorded separately in
`item_columns` and `order_columns` below. -/
structure ItemRow where
  id : Nat
  img_url : String
  name : String
  price : Rat
  sex : Option String
  size : Option String
  brand : Option String
  ctype : Option String
  weight : Option Rat
  color : Option String
  user_id : Option Nat
  inventory_id : Option Nat
  deriving Repr, DecidableEq

/-- Row of the `order` table (class `Order`, main2.py lines 258-274). -/
structure OrderRow where
  order_num : Nat
  order_date : Option String
  total_price : Option Rat
  user_id : Option Nat
  shipping_provider_id : Option Nat
  deriving Repr, DecidableEq

/-- Row of the `placed_in` association table (class `PlacedIn`, main2.py
lines 72-75; composite primary key item_id, order_num). -/
structure PlacedInRow where
  item_id : Nat
  order_num : Nat
  deriving Repr, DecidableEq

/-- Row of the `user` table (class `User`, main2.py lines 79-116).  The
source column `type` is written `utype` here. -/
structure UserRow where
  id : Nat
  username : String
  email_address : String
  password : String
  phone_number : Option String
  utype : String
  shipping_provider_id : Option Nat
  deriving Repr, DecidableEq

/-- Row of the `billing` table (class `Billing`, main2.py lines 246-255). -/
structure BillingRow where
  card_number : String
  expiry_date : String
  cvv : String
  user_id : Option Nat
  deriving Repr, DecidableEq

/-- The persisted database state: the tables of clothing3.db that the order
subsystem reads or writes, plus the autoincrement counters for the integer
primary keys of `user` and `order`. -/
structure DBState where
  users : List UserRow
  items : List ItemRow
  orders : List OrderRow
  placed_in : List PlacedInRow
  billing : List BillingRow
  next_user_id : Nat
  next_order_num : Nat
  deriving Repr, DecidableEq

/-- Outcome of a handler when it does not raise: the redirect or rendered
template the source returns. -/
inductive HResponse where
  | redirectLogin : HResponse
  | redirectHome : HResponse
  | redirectViewOrder : HResponse
  | renderOrderSubmitted : HResponse
  | renderViewOrder : List ItemRow → Rat → HResponse
  deriving Repr, DecidableEq

/-- Stand-in for werkzeug's `generate_password_hash` (main2.py line 338); the
concrete hash value is irrelevant to every claim, only that some string is
stored. -/
def generate_password_hash (p : String) : String :=
  "pbkdf2:sha256$" ++ p

/-- `sign_up`, main2.py lines 323-427, validated-POST path.  If a user with
the given email exists, flash and redirect to login (lines 328-332).
Otherwise a new `User` is added and committed (lines 334-347) and a new
`Billing` is added and committed (lines 350-362).  The `Order` constructed at
lines 356-358 is never passed to `db.session.add`, so no order row is
persisted by sign-up. -/
def sign_up (username email password phone utype card expiry cvv : String)
    (db : DBState) : DBState × Except PyError HResponse :=
  if db.users.any (fun u => u.email_address == email) then
    (db, .ok .redirectLogin)
  else
    let uid := db.next_user_id
    let db1 : DBState :=
      { db with
        users := db.users ++
          [⟨uid, username, email, generate_password_hash password, some phone,
            utype, some 1⟩],
        next_user_id := uid + 1 }
    let db2 : DBState :=
      { db1 with billing := db1.billing ++ [⟨card, expiry, cvv, some uid⟩] }
    (db2, .ok .redirectHome)

/-- `customer_add_item`, main2.py lines 601-713, validated-POST path for the
current user `uid` and URL argument `item_id`; `form_name` is the POSTed name
field and `now` the formatted current date.

Line 607 fetches the item by primary key; if it is absent, prepopulating the
form at line 610 dereferences `None.name` (AttributeError).  Line 624 tests
`Order.query.filter_by(user_id=...).first() and Item.query.get(name=item_name)`:
when an order row for the user exists, the right conjunct runs and
`Query.get` with the keyword `name` raises TypeError before any mutation
(lines 626-631, including the insertion of the `PlacedIn` row, never run).
When no order exists the conjunction short-circuits to the else branch
(lines 668-676), which creates and commits a new order with the current
date, `total_price=0` and `shipping_provider_id=1`; then line 678 makes the
same `Item.query.get(name=item_name)` call and raises TypeError, so the
commented-out line-item insertion (lines 679-682) and the total recompute
(lines 692-706) never run. -/
def customer_add_item (uid item_id : Nat) (form_name now : String)
    (db : DBState) : DBState × Except PyError HResponse :=
  match db.items.find? (fun it => it.id == item_id) with
  | none => (db, .error (.attributeError "name"))
  | some _item_to_add =>
    if ((db.orders.filter (fun o => o.user_id == some uid)).head?).isSome then
      (db, .error (.typeError "get"))
    else
      let new_order : OrderRow :=
        ⟨db.next_order_num, some now, some 0, some uid, some 1⟩
      let db1 : DBState :=
        { db with orders := db.orders ++ [new_order],
                  next_order_num := db.next_order_num + 1 }
      (db1, .error (.typeError "get"))

/-- The join `Item.query.join(association_table).join(Order).filter(
association_table.c.order_num == onum).all()` (main2.py lines 725-726,
744-745): the items joined through a `placed_in` row carrying the given
order number.  The composite primary key of `placed_in` makes each item
appear at most once per order. -/
def joined_items (db : DBState) (onum : Nat) : List ItemRow :=
  (db.placed_in.filter (fun p => p.order_num == onum)).filterMap
    (fun p => db.items.find? (fun it => it.id == p.item_id))

/-- Effect of `db.session.delete(record)` on an `Item` entity (main2.py
line 747): the item row is removed, and the ORM cascades the removal of its
rows in the many-to-many secondary table. -/
def delete_item_row (db : DBState) (r : ItemRow) : DBState :=
  { db with items := db.items.filter (fun it => it.id != r.id),
            placed_in := db.placed_in.filter (fun p => p.item_id != r.id) }

/-- `view_order`, main2.py lines 716-757, for the current user `uid`;
`submitted` is `OrderForm.validate_on_submit()` (true on the checkout POST).

Line 723 takes the first order row for the user; if there is none, line 726
dereferences `None.order_num` (AttributeError).  Lines 728-731 loop over the
joined items and call `Item.query.get(id=...)` with a keyword argument, a
TypeError on the first iteration, so any order with at least one line item
makes the page raise before the form is built.  With no line items the loop
is empty; on submit, lines 744-748 re-run the join (an empty list here) and
`db.session.delete` each resulting `Item` entity, line 749 queries the
user's order and discards it, and the order-submitted template is rendered:
no `placed_in` row and no `order` row is ever deleted. -/
def view_order (uid : Nat) (submitted : Bool) (db : DBState) :
    DBState × Except PyError HResponse :=
  match (db.orders.filter (fun o => o.user_id == some uid)).head? with
  | none => (db, .error (.attributeError "order_num"))
  | some order_to_view =>
    if (joined_items db order_to_view.order_num).isEmpty then
      if submitted then
        ((joined_items db order_to_view.order_num).foldl delete_item_row db,
          .ok .renderOrderSubmitted)
      else
        (db, .ok (.renderViewOrder [] 0))
    else
      (db, .error (.typeError "get"))

/-- `delete_order_item`, main2.py lines 760-776, for the current user `uid`
and URL argument `item_id`.

Line 765 fetches the item by primary key, line 767 the first order row for
the user.  The filter expression at lines 769-771 evaluates
`item_to_delete.id` first and `order_to_delete_from.order_num` second, so a
missing item raises AttributeError on `id` and, with the item present, a
missing order raises AttributeError on `order_num`.  Otherwise the join
produces a Python list, and line 773 calls `db.session.delete` on that list,
which SQLAlchemy rejects (UnmappedInstanceError) before any commit, whether
or not the item is in the order. -/
def delete_order_item (uid item_id : Nat) (db : DBState) :
    DBState × Except PyError HResponse :=
  match db.items.find? (fun it => it.id == item_id) with
  | none => (db, .error (.attributeError "id"))
  | some item_to_delete =>
    match (db.orders.filter (fun o => o.user_id == some uid)).head? with
    | none => (db, .error (.attributeError "order_num"))
    | some order_to_delete_from =>
      let _record_to_delete :=
        (db.placed_in.filter (fun p =>
          p.item_id == item_to_delete.id &&
          p.order_num == order_to_delete_from.order_num)).filterMap
          (fun p => db.items.find? (fun it => it.id == p.item_id))
      (db, .error .unmappedInstanceError)

/-- The sum of `Item.price` over the `placed_in` rows currently carrying the
given order number (the quantity the specification calls the recomputed
total). -/
def order_total (db : DBState) (onum : Nat) : Rat :=
  (joined_items db onum).foldl (fun acc it => acc + it.price) 0

/-- Import-time load error: an unbound top-level name, or an attribute missing
from the SQLAlchemy object `db`. -/
inductive LoadErr where
  | nameErr : String → LoadErr
  | attributeErr : String → LoadErr
  deriving Repr, DecidableEq

/-- One top-level statement of main2.py: its first source line, the top-level
names its import-time evaluation reads, the attributes it accesses on the
`db` object, and the names it binds.  For a `def` statement only the
decorator names are read at import time (the body runs at call time); for a
`class` statement the whole body runs at import time. -/
structure PyStmt where
  line : Nat
  refs : List String
  db_attrs : List String
  defines : List String
  deriving Repr, DecidableEq

/-- The attributes the flask_sqlalchemy `SQLAlchemy` instance `db` exposes
that main2.py uses; the misspelled `ForiegnKey` is not among them. -/
def sqlalchemy_attrs : List String :=
  ["Model", "Table", "Column", "ForeignKey", "Integer", "String", "Float",
   "session", "create_all"]

/-- The top-level statements of main2.py in source order.  The statement at
line 66 is the `association_table` assignment, present only as a comment, so
it binds nothing; the `PlacedIn` class body (line 72) accesses
`db.ForiegnKey`; the `Item` (line 200) and `Order` (line 258) class bodies
reference the name `association_table` in their `relationship(...,
secondary=association_table, ...)` calls (lines 223 and 274). -/
def main2_stmts : List PyStmt := [
  ⟨1, [], [],
    ["Flask", "render_template", "redirect", "url_for", "flash", "abort",
     "Bootstrap", "SQLAlchemy", "relationship", "LoginManager", "UserMixin",
     "current_user", "login_required", "login_user", "logout_user",
     "generate_password_hash", "check_password_hash", "load_dotenv", "os",
     "datetime", "wraps", "SignUpForm", "LoginForm", "ItemForm",
     "BillingForm", "OrderForm", "CURRENT_YEAR", "app", "db",
     "login_manager"]⟩,
  ⟨42, ["wraps", "current_user", "abort"], [], ["admin_only"]⟩,
  ⟨54, ["wraps", "current_user", "abort"], [], ["customer_only"]⟩,
  ⟨66, [], [], []⟩,
  ⟨72, ["db"], ["Model", "Column", "Integer", "ForiegnKey", "ForeignKey"],
    ["PlacedIn"]⟩,
  ⟨79, ["UserMixin", "db", "relationship"],
    ["Model", "Column", "Integer", "String", "ForeignKey"], ["User"]⟩,
  ⟨163, ["db", "relationship"],
    ["Model", "Column", "Integer", "String", "ForeignKey"], ["Warehouse"]⟩,
  ⟨182, ["db", "relationship"],
    ["Model", "Column", "Integer", "String", "ForeignKey"], ["Inventory"]⟩,
  ⟨200, ["db", "relationship", "association_table"],
    ["Model", "Column", "Integer", "String", "Float", "ForeignKey"],
    ["Item"]⟩,
  ⟨246, ["db", "relationship"],
    ["Model", "Column", "String", "Integer", "ForeignKey"], ["Billing"]⟩,
  ⟨258, ["db", "relationship", "association_table"],
    ["Model", "Column", "Integer", "String", "Float", "ForeignKey"],
    ["Order"]⟩,
  ⟨277, ["db", "relationship"],
    ["Model", "Column", "Integer", "String", "Float"], ["ShippingProvider"]⟩,
  ⟨291, ["app", "db"], ["create_all"], []⟩,
  ⟨295, ["login_manager"], [], ["load_user"]⟩,
  ⟨301, ["app"], [], ["home"]⟩,
  ⟨323, ["app"], [], ["sign_up"]⟩,
  ⟨430, ["app"], [], ["login"]⟩,
  ⟨465, ["app", "admin_only", "login_required"], [], ["owner_add_item"]⟩,
  ⟨516, ["app", "admin_only", "login_required"], [], ["edit_item"]⟩,
  ⟨581, ["app", "admin_only", "login_required"], [], ["delete_item"]⟩,
  ⟨601, ["app", "customer_only", "login_required"], [],
    ["customer_add_item"]⟩,
  ⟨716, ["app", "customer_only", "login_required"], [], ["view_order"]⟩,
  ⟨760, ["app", "customer_only", "login_required"], [],
    ["delete_order_item"]⟩,
  ⟨779, ["app", "customer_only", "login_required"], [], ["edit_billing"]⟩,
  ⟨806, ["app", "login_required"], [], ["logout"]⟩]

/-- First element of `xs` missing from `env`, if any. -/
def first_missing (env xs : List String) : Option String :=
  xs.find? (fun x => !(env.contains x))

/-- Evaluate one statement against the current environment: an unbound name is
a NameError, an attribute of `db` that does not exist is an AttributeError. -/
def check_stmt (env : List String) (s : PyStmt) : Except LoadErr Unit :=
  match first_missing env s.refs with
  | some n => .error (.nameErr n)
  | none =>
    match first_missing sqlalchemy_attrs s.db_attrs with
    | some a => .error (.attributeErr a)
    | none => .ok ()

/-- Run the statements in order, accumulating the bound names; the first
raising statement aborts the import. -/
def load_stmts : List String → List PyStmt → Except LoadErr (List String)
  | env, [] => .ok env
  | env, s :: rest =>
    match check_stmt env s with
    | .error e => .error e
    | .ok _ => load_stmts (env ++ s.defines) rest

/-- Names the module ends up defining: none when the import raises. -/
def loaded_names : List String :=
  match load_stmts [] main2_stmts with
  | .ok env => env
  | .error _ => []

/-- Column types that main2.py declares through the SQLAlchemy `db` object;
`decimalCol` stands for an exact decimal or fixed-point column type
(`db.Numeric`), which the source never uses. -/
inductive ColType where
  | integerCol : ColType
  | stringCol : ColType
  | floatCol : ColType
  | decimalCol : ColType
  deriving Repr, DecidableEq

/-- A declared column: its name and its column type. -/
structure ColumnDecl where
  name : String
  ctype : ColType
  deriving Repr, DecidableEq

/-- The columns of the `item` table as declared at main2.py lines 203-219:
`price` and `weight` are `db.Float`. -/
def item_columns : List ColumnDecl :=
  [⟨"id", .integerCol⟩, ⟨"img_url", .stringCol⟩, ⟨"name", .stringCol⟩,
   ⟨"price", .floatCol⟩, ⟨"sex", .stringCol⟩, ⟨"size", .stringCol⟩,
   ⟨"brand", .stringCol⟩, ⟨"type", .stringCol⟩, ⟨"weight", .floatCol⟩,
   ⟨"color", .stringCol⟩, ⟨"user_id", .integerCol⟩,
   ⟨"inventory_id", .integerCol⟩]

/-- The columns of the `order` table as declared at main2.py lines 261-270:
`total_price` is `db.Float`. -/
def order_columns : List ColumnDecl :=
  [⟨"order_num", .integerCol⟩, ⟨"order_date", .stringCol⟩,
   ⟨"total_price", .floatCol⟩, ⟨"user_id", .integerCol⟩,
   ⟨"shipping_provider_id", .integerCol⟩]

/-- Declared type of a named column. -/
def colTypeOf (cols : List ColumnDecl) (n : String) : Option ColType :=
  (cols.find? (fun c => c.name == n)).map (fun c => c.ctype)

/-- A catalog item used in the concrete runs: id 1, name shirt, price 10. -/
def item1 : ItemRow :=
  ⟨1, "img", "shirt", 10, none, none, none, none, none, none, some 2, some 1⟩

/-- A customer account (user id 0) used in the concrete runs. -/
def customer0 : UserRow :=
  ⟨0, "cust", "cust@mail.com", "pw", none, "Customer", some 1⟩

/-- Initial state for the concrete runs: one customer, one catalog item, no
orders and no line items. -/
def seedDB : DBState := ⟨[customer0], [item1], [], [], [], 1, 1⟩

/-- The order row that the first add-item request of user 0 commits. -/
def order1 : OrderRow := ⟨1, some "d", some 0, some 0, some 1⟩

/-- `seedDB` after that order exists, with an empty cart. -/
def dbWithOrder : DBState :=
  { seedDB with orders := [order1], next_order_num := 2 }

/-- `dbWithOrder` with item 1 placed in order 1. -/
def dbItemInCart : DBState := { dbWithOrder with placed_in := [⟨1, 1⟩] }

/-- One customer-facing operation of the subsystem with arbitrary arguments:
sign-up, add item, remove item, or view/submit order.  The target state is
the state the handler leaves behind, including work committed before a
raise. -/
inductive OpStep : DBState → DBState → Prop where
  | signUpStep (username email password phone utype card expiry cvv : String)
      (db : DBState) :
      OpStep db (sign_up username email password phone utype card expiry cvv db).1
  | addItemStep (uid item_id : Nat) (form_name now : String) (db : DBState) :
      OpStep db (customer_add_item uid item_id form_name now db).1
  | removeItemStep (uid item_id : Nat) (db : DBState) :
      OpStep db (delete_order_item uid item_id db).1
  | viewOrderStep (uid : Nat) (submitted : Bool) (db : DBState) :
      OpStep db (view_order uid submitted db).1

/-- States reachable by a sequence of subsystem operations. -/
abbrev ReachableDB (a b : DBState) : Prop := Relation.ReflTransGen OpStep a b

/-- `sign_up` changes neither the order table nor the association table. -/
theorem sign_up_orders_placed
    (username email password phone utype card expiry cvv : String)
    (db : DBState) :
    (sign_up username email password phone utype card expiry cvv db).1.orders
        = db.orders ∧
    (sign_up username email password phone utype card expiry cvv db).1.placed_in
        = db.placed_in := by
  unfold sign_up
  split
  · exact ⟨rfl, rfl⟩
  · exact ⟨rfl, rfl⟩

/-- `customer_add_item` either leaves the state unchanged (missing item, or
existing order making line 624 raise) or, when the user has no order row,
appends exactly the one new order committed at lines 668-676 and changes
nothing else. -/
theorem customer_add_item_cases (uid item_id : Nat) (form_name now : String)
    (db : DBState) :
    (customer_add_item uid item_id form_name now db).1 = db ∨
    (db.orders.filter (fun o => o.user_id == some uid) = [] ∧
      (customer_add_item uid item_id form_name now db).1 =
        { db with
            orders := db.orders ++
              [⟨db.next_order_num, some now, some 0, some uid, some 1⟩],
            next_order_num := db.next_order_num + 1 }) := by
  unfold customer_add_item
  split
  · exact Or.inl rfl
  · split
    · exact Or.inl rfl
    · next hh =>
      refine Or.inr ⟨?_, rfl⟩
      have h0 : (db.orders.filter (fun o => o.user_id == some uid)).head? = none :=
        Option.not_isSome_iff_eq_none.mp hh
      cases hl : db.orders.filter (fun o => o.user_id == some uid) with
      | nil => rfl
      | cons a l => rw [hl] at h0; simp at h0

/-- `delete_order_item` never changes the state: every path raises before a
commit. -/
theorem delete_order_item_state (uid item_id : Nat) (db : DBState) :
    (delete_order_item uid item_id db).1 = db := by
  unfold delete_order_item
  split
  · rfl
  · split
    · rfl
    · rfl

/-- `view_order` never changes the state: a missing order or a non-empty
cart raises, and the submit branch only ever folds a delete over the empty
join result. -/
theorem view_order_state (uid : Nat) (submitted : Bool) (db : DBState) :
    (view_order uid submitted db).1 = db := by
  unfold view_order
  split
  · rfl
  · next o heq =>
    split
    · next hempty =>
      split
      · have hnil : joined_items db o.order_num = [] :=
          List.isEmpty_iff.mp hempty
        simp [hnil]
      · rfl
    · rfl

/-- Number of order rows carrying the given user id (the spec's open orders
of a customer; the source never marks or deletes an order, so every order
row counts as open). -/
def count_user_orders (db : DBState) (uid : Nat) : Nat :=
  (db.orders.filter (fun o => o.user_id == some uid)).length

/-- Invariant of every reachable state: no `placed_in` row exists and every
persisted `total_price` is 0.  It captures that no code path of the
subsystem ever succeeds in inserting a line item or in recomputing a total:
the only write to either table that any handler reaches is the creation of a
fresh order with `total_price=0`. -/
def ZeroTotals (db : DBState) : Prop :=
  db.placed_in = [] ∧ ∀ o ∈ db.orders, o.total_price = some 0

theorem opStep_zeroTotals {a b : DBState} (h : OpStep a b)
    (ha : ZeroTotals a) : ZeroTotals b := by
  obtain ⟨hp, ht⟩ := ha
  cases h with
  | signUpStep username email password phone utype card expiry cvv =>
    obtain ⟨ho, hpl⟩ :=
      sign_up_orders_placed username email password phone utype card expiry cvv a
    exact ⟨by rw [hpl]; exact hp, by rw [ho]; exact ht⟩
  | addItemStep uid item_id form_name now =>
    rcases customer_add_item_cases uid item_id form_name now a with
      heq | ⟨hfil, heq⟩
    · rw [heq]; exact ⟨hp, ht⟩
    · rw [heq]
      refine ⟨hp, ?_⟩
      intro o ho
      have ho2 : o ∈ a.orders ++
          [⟨a.next_order_num, some now, some 0, some uid, some 1⟩] := ho
      rcases List.mem_append.mp ho2 with h1 | h2
      · exact ht o h1
      · rw [List.mem_singleton.mp h2]
  | removeItemStep uid item_id =>
    rw [delete_order_item_state]
    exact ⟨hp, ht⟩
  | viewOrderStep uid submitted =>
    rw [view_order_state]
    exact ⟨hp, ht⟩

theorem reach_zeroTotals {a b : DBState} (h : ReachableDB a b)
    (ha : ZeroTotals a) : ZeroTotals b := by
  induction h with
  | refl => exact ha
  | tail _ hstep ih => exact opStep_zeroTotals hstep ih

theorem opStep_atMostOne {a b : DBState} (h : OpStep a b)
    (ha : ∀ uid, count_user_orders a uid ≤ 1) :
    ∀ uid, count_user_orders b uid ≤ 1 := by
  cases h with
  | signUpStep username email password phone utype card expiry cvv =>
    intro u
    unfold count_user_orders
    rw [(sign_up_orders_placed username email password phone utype card
      expiry cvv a).1]
    exact ha u
  | addItemStep uid item_id form_name now =>
    intro u
    rcases customer_add_item_cases uid item_id form_name now a with
      heq | ⟨hfil, heq⟩
    · unfold count_user_orders
      rw [heq]
      exact ha u
    · unfold count_user_orders
      rw [heq]
      show ((a.orders ++
        [OrderRow.mk a.next_order_num (some now) (some 0) (some uid)
          (some 1)]).filter
          (fun o => o.user_id == some u)).length ≤ 1
      rw [List.filter_append]
      by_cases hu : uid = u
      · subst hu
        rw [hfil]
        simp
      · have hne : ((OrderRow.mk a.next_order_num (some now) (some 0)
            (some uid) (some 1)).user_id == some u) = false := by
          simp
          exact hu
        simp [List.filter, hne]
        have := ha u
        unfold count_user_orders at this
        exact this
  | removeItemStep uid item_id =>
    intro u
    unfold count_user_orders
    rw [delete_order_item_state]
    exact ha u
  | viewOrderStep uid submitted =>
    intro u
    unfold count_user_orders
    rw [view_order_state]
    exact ha u

theorem reach_atMostOne {a b : DBState} (h : ReachableDB a b)
    (ha : ∀ uid, count_user_orders a uid ≤ 1) :
    ∀ uid, count_user_orders b uid ≤ 1 := by
  induction h with
  | refl => exact ha
  | tail _ hstep ih => exact opStep_atMostOne hstep ih

/-- C1: at every state reachable from an initial state with no orders and no
line items by any sequence of the subsystem's operations — in particular
after every add-item or remove-item request, whether it completes or raises —
every persisted `Order.total_price` equals the sum of `Item.price` over the
`placed_in` rows carrying that order's `order_num`. -/
theorem C1_total_price_consistent (db0 db : DBState) (o : OrderRow)
    (h0 : db0.orders = []) (h1 : db0.placed_in = [])
    (hr : ReachableDB db0 db) (ho : o ∈ db.orders) :
    o.total_price = some (order_total db o.order_num) := by
  have hz0 : ZeroTotals db0 := by
    refine ⟨h1, ?_⟩
    intro r hr2
    rw [h0] at hr2
    simp at hr2
  obtain ⟨hp, ht⟩ := reach_zeroTotals hr hz0
  have htot : order_total db o.order_num = 0 := by
    unfold order_total joined_items
    rw [hp]
    rfl
  rw [htot]
  exact ht o ho

theorem C1_witness :
    order1.total_price =
      some (order_total (customer_add_item 0 1 "shirt" "d" seedDB).1
        order1.order_num) :=
  C1_total_price_consistent seedDB
    (customer_add_item 0 1 "shirt" "d" seedDB).1 order1 rfl rfl
    (Relation.ReflTransGen.single (OpStep.addItemStep 0 1 "shirt" "d" seedDB))
    (by decide)

/-- C2: on the Python side, submitting never deletes the order row.  In the
concrete run, the submit POST for a customer whose open order is order 1
with an empty cart renders the order-submitted page while order 1 survives
in the order table, and as soon as the order holds a line item the view/submit
page raises TypeError at line 730 before the submit form is reachable. -/
theorem C2_submit_never_deletes_order :
    view_order 0 true dbWithOrder =
      (dbWithOrder, Except.ok HResponse.renderOrderSubmitted) ∧
    (view_order 0 true dbWithOrder).1.orders = [order1] ∧
    view_order 0 true dbItemInCart =
      (dbItemInCart, Except.error (PyError.typeError "get")) :=
  ⟨rfl, rfl, rfl⟩

/-- C3: no operation of the subsystem (add item, remove item, view order,
submit order) ever changes the `item` table: the paths that would delete
`Item` rows (main2.py lines 744-748 and 773) sit behind raises that occur
first, and the add path never touches the table at all. -/
theorem C3_item_table_unchanged (db : DBState) (uid item_id : Nat)
    (form_name now : String) (submitted : Bool) :
    (customer_add_item uid item_id form_name now db).1.items = db.items ∧
    (delete_order_item uid item_id db).1.items = db.items ∧
    (view_order uid submitted db).1.items = db.items := by
  refine ⟨?_, ?_, ?_⟩
  · rcases customer_add_item_cases uid item_id form_name now db with
      h | ⟨_, h⟩ <;> rw [h]
  · rw [delete_order_item_state]
  · rw [view_order_state]

/-- C4: concrete run of the add path for a customer with no open order:
a new order row (date set, total_price 0, shipping provider 1) is created
and committed, but the handler then raises TypeError at line 678, so no
`placed_in` row is inserted, no total recompute runs, and no order is
returned. -/
theorem C4_first_add_commits_order_then_raises :
    customer_add_item 0 1 "shirt" "d" seedDB =
      ({ seedDB with orders := [order1], next_order_num := 2 },
        Except.error (PyError.typeError "get")) ∧
    (customer_add_item 0 1 "shirt" "d" seedDB).1.placed_in = [] :=
  ⟨rfl, rfl⟩

/-- C5: concrete runs of the remove path.  With an open order that does not
contain item 1, the handler raises UnmappedInstanceError from
`db.session.delete` on a list (line 773); with no open order at all it
raises AttributeError on `None.order_num` (line 771).  Neither outcome is a
typed NotFound. -/
theorem C5_remove_not_present_raises :
    delete_order_item 0 1 dbWithOrder =
      (dbWithOrder, Except.error PyError.unmappedInstanceError) ∧
    delete_order_item 0 1 seedDB =
      (seedDB, Except.error (PyError.attributeError "order_num")) :=
  ⟨rfl, rfl⟩

/-- C6: at every state reachable from an initial state with no orders by any
sequence of sign-up, add-item, remove-item and view/submit operations, each
user id has at most one order row (and the source never closes an order, so
every order row is open). -/
theorem C6_at_most_one_open_order (db0 db : DBState) (uid : Nat)
    (h0 : db0.orders = []) (hr : ReachableDB db0 db) :
    count_user_orders db uid ≤ 1 := by
  refine reach_atMostOne hr ?_ uid
  intro u
  unfold count_user_orders
  rw [h0]
  simp

theorem C6_witness :
    count_user_orders (customer_add_item 0 1 "shirt" "d" seedDB).1 0 ≤ 1 :=
  C6_at_most_one_open_order seedDB
    (customer_add_item 0 1 "shirt" "d" seedDB).1 0 rfl
    (Relation.ReflTransGen.single (OpStep.addItemStep 0 1 "shirt" "d" seedDB))

/-- C7: concrete run of view-order for a customer with no open order: the
handler dereferences `None.order_num` at line 726 and raises AttributeError,
an unhandled 500, not a typed NotFound surfaced to the caller. -/
theorem C7_view_order_without_order_raises :
    view_order 0 false seedDB =
      (seedDB, Except.error (PyError.attributeError "order_num")) :=
  rfl

/-- C8 counterexample: the source declares neither `Item.price` nor
`Order.total_price` with an exact decimal or fixed-point column type. -/
theorem C8_counterexample :
    colTypeOf item_columns "price" ≠ some ColType.decimalCol ∧
    colTypeOf order_columns "total_price" ≠ some ColType.decimalCol := by
  exact ⟨by decide, by decide⟩

/-- C8 (amended): `Item.price` and `Order.total_price` are declared as
`db.Float` (IEEE-754 binary64 under Python's `float()` accumulation at lines
653 and 699), not exact decimal; and the only total the code ever persists
is the 0 written for a newly created order with no line items. -/
theorem C8_float_columns_and_empty_total (db : DBState) (uid item_id : Nat)
    (form_name now : String)
    (hitem : (db.items.find? (fun it => it.id == item_id)).isSome)
    (hord : db.orders.filter (fun o => o.user_id == some uid) = []) :
    colTypeOf item_columns "price" = some ColType.floatCol ∧
    colTypeOf order_columns "total_price" = some ColType.floatCol ∧
    (customer_add_item uid item_id form_name now db).1.orders =
      db.orders ++
        [OrderRow.mk db.next_order_num (some now) (some 0) (some uid)
          (some 1)] := by
  refine ⟨by decide, by decide, ?_⟩
  rcases customer_add_item_cases uid item_id form_name now db with
    heq | ⟨hfil, heq⟩
  · exfalso
    unfold customer_add_item at heq
    rcases hfind : db.items.find? (fun it => it.id == item_id) with _ | it
    · rw [hfind] at hitem; simp at hitem
    · rw [hfind] at heq
      have hh : ((db.orders.filter
          (fun o => o.user_id == some uid)).head?).isSome = false := by
        rw [hord]; rfl
      rw [hh] at heq
      simp at heq
      have : db.orders = db.orders ++
          [OrderRow.mk db.next_order_num (some now) (some 0) (some uid)
            (some 1)] := by
        conv_lhs => rw [← heq]
      simp at this
  · rw [heq]

theorem C8_witness :
    colTypeOf item_columns "price" = some ColType.floatCol ∧
    colTypeOf order_columns "total_price" = some ColType.floatCol ∧
    (customer_add_item 0 1 "shirt" "d" seedDB).1.orders =
      seedDB.orders ++
        [OrderRow.mk seedDB.next_order_num (some "d") (some 0) (some 0)
          (some 1)] :=
  C8_float_columns_and_empty_total seedDB 0 1 "shirt" "d" (by decide)
    (by decide)

deriving instance DecidableEq for Except

/-- C9: importing main2.py raises before any route is defined: the module
load stops at the `PlacedIn` class body with AttributeError on the
misspelled `db.ForiegnKey` (line 74); even with that statement removed the
load stops at the `Item` class body with NameError on `association_table`
(whose definition, lines 66-69, is commented out and which only the `Item`
and `Order` class bodies reference, lines 223 and 274); consequently none of
the subsystem's handlers is ever defined. -/
theorem C9_import_fails_no_handler_defined :
    load_stmts [] main2_stmts =
      Except.error (LoadErr.attributeErr "ForiegnKey") ∧
    load_stmts [] (main2_stmts.filter (fun s => s.line ≠ 72)) =
      Except.error (LoadErr.nameErr "association_table") ∧
    (main2_stmts.filter (fun s => s.refs.contains "association_table")).map
      (fun s => s.line) = [200, 258] ∧
    loaded_names.contains "customer_add_item" = false ∧
    loaded_names.contains "view_order" = false ∧
    loaded_names.contains "delete_order_item" = false := by
  refine ⟨by decide, by decide, by decide, by decide, by decide, by decide⟩

/-- C10: whenever the requesting customer already has an order row, the
validated-POST add-item handler raises (AttributeError if the clicked item
is missing, otherwise TypeError at line 624) and leaves the database
untouched: in particular no `placed_in` row is inserted and the
add-to-existing-order operation never completes. -/
theorem C10_add_to_existing_order_never_completes (db : DBState)
    (uid item_id : Nat) (form_name now : String)
    (h : db.orders.filter (fun o => o.user_id == some uid) ≠ []) :
    (customer_add_item uid item_id form_name now db).1 = db ∧
    ∃ e, (customer_add_item uid item_id form_name now db).2 =
      Except.error e := by
  have hh : ((db.orders.filter
      (fun o => o.user_id == some uid)).head?).isSome = true := by
    cases hl : db.orders.filter (fun o => o.user_id == some uid) with
    | nil => exact absurd hl h
    | cons x l => rfl
  unfold customer_add_item
  split
  · exact ⟨rfl, PyError.attributeError "name", rfl⟩
  · rw [if_pos hh]
    exact ⟨rfl, PyError.typeError "get", rfl⟩

theorem C10_witness :
    (customer_add_item 0 1 "shirt" "d" dbWithOrder).1 = dbWithOrder :=
  (C10_add_to_existing_order_never_completes dbWithOrder 0 1 "shirt" "d"
    (by decide)).1
